import Mathlib

/-!
Verification of the harvest-link-chain ml-service against its specification.

The Python sources are shallowly embedded: floating point numbers are
modelled as exact rationals, Python dictionaries as association lists,
raised exceptions as `Except`, the SQLite predictions table as a list of
rows threaded through the handlers, and the opaque fitted scikit-learn
regressor as a function parameter (its output on a given input is the
only thing the surrounding code observes).
-/

namespace HarvestLink

/-- Python's `round` to the nearest integer, rounding halves to the even
integer (banker's rounding), modelled on exact rationals. -/
def pyRoundInt (x : ℚ) : ℤ :=
  if x - ⌊x⌋ < 1/2 then ⌊x⌋
  else if 1/2 < x - ⌊x⌋ then ⌊x⌋ + 1
  else if ⌊x⌋ % 2 = 0 then ⌊x⌋ else ⌊x⌋ + 1

/-- Python's `round(x, 2)`: round to the nearest multiple of 1/100,
halves to even. -/
def round2 (x : ℚ) : ℚ := (pyRoundInt (x * 100) : ℚ) / 100

theorem pyRoundInt_sub_abs_le (x : ℚ) : |(pyRoundInt x : ℚ) - x| ≤ 1/2 := by
  have h1 : ((⌊x⌋ : ℤ) : ℚ) ≤ x := Int.floor_le x
  have h2 : x < (⌊x⌋ : ℤ) + 1 := Int.lt_floor_add_one x
  unfold pyRoundInt
  split_ifs with hf hg ho
  · rw [abs_le]; constructor <;> linarith
  · rw [abs_le]; push_cast at hf hg ⊢; constructor <;> linarith
  · have hfe : x - (⌊x⌋ : ℚ) = 1/2 := le_antisymm (not_lt.mp hg) (not_lt.mp hf)
    rw [abs_le]; constructor <;> linarith
  · have hfe : x - (⌊x⌋ : ℚ) = 1/2 := le_antisymm (not_lt.mp hg) (not_lt.mp hf)
    rw [abs_le]; push_cast; constructor <;> linarith

theorem round2_sub_abs_le (x : ℚ) : |round2 x - x| ≤ 1/200 := by
  have h := pyRoundInt_sub_abs_le (x * 100)
  rw [abs_le] at h ⊢
  unfold round2
  constructor <;> linarith [h.1, h.2]

theorem pyRoundInt_nonneg (x : ℚ) (hx : 0 ≤ x) : 0 ≤ pyRoundInt x := by
  have h1 : (0 : ℤ) ≤ ⌊x⌋ := Int.floor_nonneg.mpr hx
  unfold pyRoundInt
  split_ifs <;> omega

theorem round2_nonneg (x : ℚ) (hx : 0 ≤ x) : 0 ≤ round2 x := by
  unfold round2
  have h : (0 : ℤ) ≤ pyRoundInt (x * 100) := pyRoundInt_nonneg _ (by positivity)
  positivity

theorem pyRoundInt_intCast (k : ℤ) : pyRoundInt (k : ℚ) = k := by
  unfold pyRoundInt
  rw [Int.floor_intCast]
  simp

/-- `round2` is the identity on values that are already integer multiples
of 1/100 (such as every price the service returns). -/
theorem round2_cent (k : ℤ) : round2 ((k : ℚ) / 100) = (k : ℚ) / 100 := by
  unfold round2
  rw [div_mul_cancel₀ _ (by norm_num : (100 : ℚ) ≠ 0), pyRoundInt_intCast]

theorem round2_idem (x : ℚ) : round2 (round2 x) = round2 x := by
  unfold round2
  rw [div_mul_cancel₀ _ (by norm_num : (100 : ℚ) ≠ 0), pyRoundInt_intCast]

/-!
## The Prediction Function

`PerfectCropPricePredictor.predict` (train_perfect_ai_model.py, lines
295-327) converts the input to a single-row frame, applies
`_apply_feature_engineering`, calls `self.best_model.predict` once, and
formats the returned raw prediction.  The fitted scikit-learn regressor
is opaque to this repository, so it enters the embedding as a function
`model : PredictInput → ℚ`; everything after the call is embedded
exactly.  `app/main.py` (lines 88-97) and `app/main_simple.py` (lines
78-95) format their model's raw output with the same arithmetic.
-/

/-- The request body of POST /predict as validated by the pydantic model
`PredictionInput` (app/main_perfect.py, lines 123-133). -/
structure PredictInput where
  crop : String
  state : String
  soil_type : String
  month : ℤ
  temperature : ℚ
  rainfall : ℚ
  humidity : ℚ
  prev_year_price : ℚ
deriving Repr, DecidableEq

/-- The pydantic field constraints on `PredictionInput`: month between 1
and 12, humidity between 0 and 100, positive previous-year price. -/
def validInput (i : PredictInput) : Prop :=
  1 ≤ i.month ∧ i.month ≤ 12 ∧ 0 ≤ i.humidity ∧ i.humidity ≤ 100 ∧ 0 < i.prev_year_price

instance (i : PredictInput) : Decidable (validInput i) := by
  unfold validInput; infer_instance

/-- The body of a prediction response: `predicted_price`, the two
endpoints of `confidence_interval`, and `currency`. -/
structure PredictionResult where
  predicted_price : ℚ
  confidence_lo : ℚ
  confidence_hi : ℚ
  currency : String
deriving Repr, DecidableEq

/-- Formatting of a raw model output by `predict`
(train_perfect_ai_model.py, lines 310-327): the confidence interval is
built from the unrounded prediction, then every value is rounded to two
decimals. -/
def predictFormat (raw : ℚ) : PredictionResult :=
  { predicted_price := round2 raw
  , confidence_lo := round2 (raw * (9/10))
  , confidence_hi := round2 (raw * (11/10))
  , currency := "INR" }

/-- The whole Prediction Function: one opaque regressor call followed by
the exact output formatting. -/
def predict (model : PredictInput → ℚ) (i : PredictInput) : PredictionResult :=
  predictFormat (model i)

/-- An input used throughout as a concrete test point: the sample
prediction of train_perfect_ai_model.py, lines 445-454. -/
def sampleInput : PredictInput :=
  { crop := "Rice", state := "Punjab", soil_type := "Alluvial", month := 10
  , temperature := 57/2, rainfall := 120, humidity := 65, prev_year_price := 2000 }

/-- Claim C1, as stated, is false: the code applies no lower bound to the
opaque regressor's output, so a loadable model that returns -100 on the
(valid) sample input makes `predict` return a negative `predicted_price`. -/
theorem predict_price_nonneg_counterexample :
    validInput sampleInput ∧
      (predict (fun _ => -100) sampleInput).predicted_price < 0 := by
  constructor
  · decide
  · show round2 (-100) < 0
    norm_num [round2, pyRoundInt]

/-- Claim C1 (amended): for every input and every regressor, the two
`confidence_interval` endpoints equal `0.9 * predicted_price` and
`1.1 * predicted_price` up to the tolerance introduced by rounding every
value to 2 decimals (at most 19/2000 and 21/2000 respectively) and the
currency is always "INR"; `predicted_price` is non-negative whenever the
raw regressor output is non-negative (the code applies no clamp, so this
is all the sign information the formatting provides). -/
theorem predict_price_format_spec (model : PredictInput → ℚ) (i : PredictInput) :
    (0 ≤ model i → 0 ≤ (predict model i).predicted_price) ∧
    |(predict model i).confidence_lo -
        (9/10) * (predict model i).predicted_price| ≤ 19/2000 ∧
    |(predict model i).confidence_hi -
        (11/10) * (predict model i).predicted_price| ≤ 21/2000 ∧
    (predict model i).currency = "INR" := by
  have hp := round2_sub_abs_le (model i)
  have hlo := round2_sub_abs_le (model i * (9/10))
  have hhi := round2_sub_abs_le (model i * (11/10))
  rw [abs_le] at hp hlo hhi
  refine ⟨fun hraw => round2_nonneg _ hraw, ?_, ?_, rfl⟩
  · show |round2 (model i * (9/10)) - 9/10 * round2 (model i)| ≤ 19/2000
    rw [abs_le]
    constructor <;> linarith [hp.1, hp.2, hlo.1, hlo.2]
  · show |round2 (model i * (11/10)) - 11/10 * round2 (model i)| ≤ 21/2000
    rw [abs_le]
    constructor <;> linarith [hp.1, hp.2, hhi.1, hhi.2]

theorem predict_price_format_spec_witness :
    0 ≤ ((fun _ : PredictInput => (2500 : ℚ)) sampleInput) ∧
    ((0 ≤ (fun _ : PredictInput => (2500 : ℚ)) sampleInput →
        0 ≤ (predict (fun _ => 2500) sampleInput).predicted_price) ∧
     |(predict (fun _ => 2500) sampleInput).confidence_lo -
         (9/10) * (predict (fun _ => 2500) sampleInput).predicted_price| ≤ 19/2000 ∧
     |(predict (fun _ => 2500) sampleInput).confidence_hi -
         (11/10) * (predict (fun _ => 2500) sampleInput).predicted_price| ≤ 21/2000 ∧
     (predict (fun _ => 2500) sampleInput).currency = "INR") :=
  ⟨by norm_num, predict_price_format_spec (fun _ => 2500) sampleInput⟩

/-!
## Feature Engineering lookups

`_apply_feature_engineering` (train_perfect_ai_model.py, lines 329-392)
derives columns with `Series.map(dict)`, which yields NaN for keys
outside the dictionary (embedded as `Option.none`), optionally followed
by `.fillna(default)` (embedded as `Option.getD`).
-/

/-- A pandas `Series.map(dict)` on a single value: `none` models NaN. -/
def tableLookup {α : Type} (tbl : List (String × α)) (k : String) : Option α :=
  (tbl.find? (fun p => p.1 == k)).map Prod.snd

/-- The season dictionary applied to `month`
(train_perfect_ai_model.py lines 344-349, identically at lines 51-56 and
app/main_simple.py lines 70-75).  Keyed by integers. -/
def seasonOfMonth (m : ℤ) : Option String :=
  (([(12, "Winter"), (1, "Winter"), (2, "Winter"),
     (3, "Spring"), (4, "Spring"), (5, "Spring"),
     (6, "Summer"), (7, "Summer"), (8, "Summer"),
     (9, "Autumn"), (10, "Autumn"), (11, "Autumn")] : List (ℤ × String)).find?
    (fun p => p.1 == m)).map Prod.snd

/-- The `crop_category` dictionary (train_perfect_ai_model.py lines
364-371); at prediction time the lookup is followed by
`.fillna('Other')`. -/
def cropCategoryTable : List (String × String) :=
  [("Rice", "Cereal"), ("Wheat", "Cereal"), ("Maize", "Cereal"), ("Jowar", "Cereal"),
   ("Bajra", "Cereal"), ("Ragi", "Cereal"),
   ("Cotton", "Fiber"), ("Sugarcane", "Sugar"),
   ("Soybean", "Oilseed"), ("Groundnut", "Oilseed"),
   ("Potato", "Vegetable"), ("Onion", "Vegetable"),
   ("Turmeric", "Spice"), ("Arhar", "Pulse")]

def crop_category (c : String) : String :=
  (tableLookup cropCategoryTable c).getD "Other"

/-- The `state_economic_factors` dictionary (train_perfect_ai_model.py
lines 374-378); at prediction time followed by `.fillna(1.0)`. -/
def stateEconomicTable : List (String × ℚ) :=
  [("Punjab", 12/10), ("Maharashtra", 11/10), ("Karnataka", 1), ("Uttar Pradesh", 9/10),
   ("Madhya Pradesh", 95/100), ("Andhra Pradesh", 105/100), ("West Bengal", 9/10),
   ("Gujarat", 11/10), ("Rajasthan", 85/100), ("Haryana", 115/100)]

def state_economic_factor (s : String) : ℚ :=
  (tableLookup stateEconomicTable s).getD 1

/-- The `soil_productivity` dictionary (train_perfect_ai_model.py lines
382-385); at prediction time followed by `.fillna(1.0)`. -/
def soilProductivityTable : List (String × ℚ) :=
  [("Alluvial", 12/10), ("Black", 11/10), ("Red", 1), ("Laterite", 9/10),
   ("Arid", 8/10), ("Mountain", 7/10)]

def soil_productivity (t : String) : ℚ :=
  (tableLookup soilProductivityTable t).getD 1

/-- Claim C6: the season bucket of `month` is exhaustive over 1..12 and
maps 12, 1, 2 to Winter, 3-5 to Spring, 6-8 to Summer, 9-11 to Autumn. -/
theorem seasonOfMonth_exhaustive (m : ℤ) (h1 : 1 ≤ m) (h2 : m ≤ 12) :
    seasonOfMonth m =
      some (if m = 12 ∨ m ≤ 2 then "Winter"
            else if m ≤ 5 then "Spring"
            else if m ≤ 8 then "Summer"
            else "Autumn") := by
  interval_cases m <;> rfl

theorem seasonOfMonth_exhaustive_witness :
    (1 : ℤ) ≤ 7 ∧ (7 : ℤ) ≤ 12 ∧
      seasonOfMonth 7 =
        some (if (7 : ℤ) = 12 ∨ (7 : ℤ) ≤ 2 then "Winter"
              else if (7 : ℤ) ≤ 5 then "Spring"
              else if (7 : ℤ) ≤ 8 then "Summer"
              else "Autumn") :=
  ⟨by norm_num, by norm_num, seasonOfMonth_exhaustive 7 (by norm_num) (by norm_num)⟩

/-- Claim C7: the fixed-table categorical lookups are total at prediction
time — a crop outside `crop_category`'s table maps to "Other", a state
outside `state_economic_factors` maps to 1.0, and a soil type outside
`soil_productivity` maps to 1.0.  (In the embedding the lookups are total
functions, so no error can be raised.) -/
theorem feature_lookups_total (c s t : String)
    (hc : c ∉ cropCategoryTable.map Prod.fst)
    (hs : s ∉ stateEconomicTable.map Prod.fst)
    (ht : t ∉ soilProductivityTable.map Prod.fst) :
    crop_category c = "Other" ∧ state_economic_factor s = 1 ∧ soil_productivity t = 1 := by
  have key : ∀ {α : Type} (tbl : List (String × α)) (k : String),
      k ∉ tbl.map Prod.fst → tableLookup tbl k = none := by
    intro α tbl k hk
    unfold tableLookup
    rw [List.find?_eq_none.mpr]
    · rfl
    · intro p hp
      simp only [beq_iff_eq]
      intro hpk
      exact hk (hpk ▸ List.mem_map_of_mem Prod.fst hp)
  refine ⟨?_, ?_, ?_⟩
  · unfold crop_category; rw [key _ _ hc]; rfl
  · unfold state_economic_factor; rw [key _ _ hs]; rfl
  · unfold soil_productivity; rw [key _ _ ht]; rfl

theorem feature_lookups_total_witness :
    "Quinoa" ∉ cropCategoryTable.map Prod.fst ∧
    "Goa" ∉ stateEconomicTable.map Prod.fst ∧
    "Clay" ∉ soilProductivityTable.map Prod.fst ∧
    (crop_category "Quinoa" = "Other" ∧ state_economic_factor "Goa" = 1 ∧
      soil_productivity "Clay" = 1) :=
  ⟨by decide, by decide, by decide,
    feature_lookups_total "Quinoa" "Goa" "Clay" (by decide) (by decide) (by decide)⟩

/-!
## The API layer

Handlers from app/main_perfect.py and app/main.py.  `PREDICT_FN` (the
module-level prediction function, `None` when the artifact failed to
load) is an `Option`; a raised `HTTPException(status_code, detail)` is
the error branch of `Except`; the SQLite `predictions` table is a list
of rows threaded through each handler, with `INSERT` + `commit`
embedded as appending a row.  The underlying prediction call may itself
raise (for example on a shape mismatch inside the fitted pipeline), so
it is embedded as `PredictInput → Except String ℚ` together with the
exact formatting `predictFormat` it performs on success.
-/

structure HTTPError where
  status_code : ℕ
  detail : String
deriving Repr, DecidableEq

/-- One row of the `predictions` table as written by the handlers
(app/main_perfect.py lines 377-385 and 417-426): the user id, the JSON
of the input and the JSON of the prediction result. -/
structure DBRow where
  user_id : ℕ
  input : PredictInput
  result : PredictionResult
deriving Repr, DecidableEq

/-- POST /predict of app/main_perfect.py (lines 348-390).  The handler
also attaches heuristic market insights and recommendations to the
response; those fields are independent of the ones the claims mention
and are elided.  When `PREDICT_FN` is `None` the 503 is raised before
the `try` block, so no prediction computation and no database write is
attempted. -/
def predict_price_perfect (fn : Option (PredictInput → Except String ℚ))
    (user : ℕ) (db : List DBRow) (i : PredictInput) :
    Except HTTPError PredictionResult × List DBRow :=
  match fn with
  | none => (.error ⟨503, "Prediction service not available"⟩, db)
  | some f =>
    match f i with
    | .error e => (.error ⟨400, e⟩, db)
    | .ok raw =>
      let r := predictFormat raw
      (.ok r, db ++ [⟨user, i, r⟩])

/-- The request body of POST /api/predict in app/main.py (lines 32-40). -/
structure BasicPredictInput where
  crop : String
  state : String
  month : ℤ
  year : ℤ
  area : ℚ
  rainfall : ℚ
  temperature : ℚ
  humidity : ℚ
deriving Repr, DecidableEq

/-- POST /api/predict of app/main.py (lines 61-100): the model and the
encoders are loaded separately at startup and the handler returns 503
when either is `None`; otherwise the encoded frame is run through the
model (opaque, embedded as `run`) and the raw prediction is formatted. -/
def predict_price_basic {M E : Type}
    (model : Option M) (encoders : Option E)
    (run : M → E → BasicPredictInput → Except String ℚ)
    (i : BasicPredictInput) : Except HTTPError PredictionResult :=
  match model, encoders with
  | some m, some e =>
    match run m e i with
    | .error err => .error ⟨400, err⟩
    | .ok raw => .ok (predictFormat raw)
  | _, _ => .error ⟨503, "Model not loaded"⟩

/-- The summary object of a batch prediction response
(app/main_perfect.py lines 435-440). -/
structure BatchSummary where
  total_predictions : ℕ
  average_price : ℚ
  price_range : List ℚ
  currency : String
deriving Repr, DecidableEq

structure BatchResponse where
  results : List PredictionResult
  summary : BatchSummary
deriving Repr, DecidableEq

/-- Python's `min` over a list; the `[]` case is unreachable in the
handler because the empty batch already fails when the average is
computed. -/
def listMin : List ℚ → ℚ
  | [] => 0
  | p :: ps => ps.foldl min p

/-- Python's `max` over a list. -/
def listMax : List ℚ → ℚ
  | [] => 0
  | p :: ps => ps.foldl max p

/-- The per-item loop of POST /predict/batch (app/main_perfect.py lines
404-426): each item is predicted, appended to `results`, and its row is
inserted and committed before the next item is processed.  An exception
raised by the prediction of an item propagates out of the loop, keeping
every row committed so far. -/
def processBatch (f : PredictInput → Except String ℚ) (user : ℕ) :
    List PredictInput → List DBRow →
      Except String (List PredictionResult) × List DBRow
  | [], db => (.ok [], db)
  | i :: rest, db =>
    match f i with
    | .error e => (.error e, db)
    | .ok raw =>
      let r := predictFormat raw
      match processBatch f user rest (db ++ [⟨user, i, r⟩]) with
      | (.error e, db2) => (.error e, db2)
      | (.ok rs, db2) => (.ok (r :: rs), db2)

/-- POST /predict/batch of app/main_perfect.py (lines 392-445).  After
the loop the handler computes `sum(...) / len(results)`, which raises
`ZeroDivisionError` (detail "division by zero") when `results` is empty;
the surrounding `except` converts any exception raised inside the `try`
into an HTTP 400 whose detail is the exception's message. -/
def predict_batch (fn : Option (PredictInput → Except String ℚ)) (user : ℕ)
    (items : List PredictInput) (db : List DBRow) :
    Except HTTPError BatchResponse × List DBRow :=
  match fn with
  | none => (.error ⟨503, "Prediction service not available"⟩, db)
  | some f =>
    match processBatch f user items db with
    | (.error e, db2) => (.error ⟨400, e⟩, db2)
    | (.ok results, db2) =>
      let prices := results.map (fun r => r.predicted_price)
      if prices.isEmpty then (.error ⟨400, "division by zero"⟩, db2)
      else
        (.ok { results := results
             , summary :=
               { total_predictions := items.length
               , average_price := round2 (prices.sum / prices.length)
               , price_range := [round2 (listMin prices), round2 (listMax prices)]
               , currency := "INR" } }, db2)

/-- The body of GET /health.  app/main_perfect.py (lines 642-651) also
reports `database_connected: True` and a version string, and
app/main_simple.py (lines 124-132) a version string; both build the
fields below identically. -/
structure HealthResponse where
  status : String
  model_loaded : Bool
  timestamp : String
deriving Repr, DecidableEq

/-- GET /health of app/main_perfect.py (lines 642-651). -/
def health_check_perfect (fn : Option (PredictInput → Except String ℚ))
    (now : String) : HealthResponse :=
  { status := "healthy", model_loaded := fn.isSome, timestamp := now }

/-- GET /health of app/main_simple.py (lines 124-132); `MODEL` is the
module-level artifact of whatever type joblib loaded. -/
def health_check_simple {M : Type} (model : Option M) (now : String) : HealthResponse :=
  { status := "healthy", model_loaded := model.isSome, timestamp := now }

/-- Claim C3: when the model artifact failed to load at startup (the
module-level prediction function or model is `None`), every call to the
predict endpoint returns HTTP 503, with the database untouched and the
outcome independent of the request body — no fallback computation is
attempted (in the embedding, the handlers are total functions, so no
call crashes the process). -/
theorem predict_unavailable_503 :
    (∀ (user : ℕ) (db : List DBRow) (i : PredictInput),
      predict_price_perfect none user db i =
        (.error ⟨503, "Prediction service not available"⟩, db)) ∧
    (∀ (M E : Type) (run : M → E → BasicPredictInput → Except String ℚ)
        (encoders : Option E) (i : BasicPredictInput),
      predict_price_basic none encoders run i = .error ⟨503, "Model not loaded"⟩) ∧
    (∀ (M E : Type) (run : M → E → BasicPredictInput → Except String ℚ)
        (model : Option M) (i : BasicPredictInput),
      predict_price_basic model none run i = .error ⟨503, "Model not loaded"⟩) := by
  refine ⟨fun _ _ _ => rfl, fun M E run encoders i => ?_, fun M E run model i => ?_⟩
  · cases encoders <;> rfl
  · cases model <;> rfl

/-- Claim C9: a batch request with an empty predictions list, made while
the model is loaded, returns HTTP 400 (the average divides by
`len(results) = 0` and the `ZeroDivisionError` is caught and converted),
not a successful response with an empty summary. -/
theorem predict_batch_empty_400
    (f : PredictInput → Except String ℚ) (user : ℕ) (db : List DBRow) :
    predict_batch (some f) user [] db = (.error ⟨400, "division by zero"⟩, db) := rfl

/-- Claim C10: GET /health always reports status "healthy" with the
current timestamp, whether or not the model loaded; `model_loaded` is
true exactly when the module-level prediction function / model is not
`None`. -/
theorem health_check_spec :
    (∀ (fn : Option (PredictInput → Except String ℚ)) (now : String),
      (health_check_perfect fn now).status = "healthy" ∧
      (health_check_perfect fn now).timestamp = now ∧
      ((health_check_perfect fn now).model_loaded = true ↔ fn ≠ none)) ∧
    (∀ (M : Type) (model : Option M) (now : String),
      (health_check_simple model now).status = "healthy" ∧
      (health_check_simple model now).timestamp = now ∧
      ((health_check_simple model now).model_loaded = true ↔ model ≠ none)) := by
  constructor
  · intro fn now
    exact ⟨rfl, rfl, by simp [health_check_perfect, Option.isSome_iff_ne_none]⟩
  · intro M model now
    exact ⟨rfl, rfl, by simp [health_check_simple, Option.isSome_iff_ne_none]⟩

/-- The per-item loop commits each successful item's row before moving
on; when a later item's prediction raises, the loop exits with the
exception while the rows already committed stay in the table. -/
theorem processBatch_error_keeps_rows
    (f : PredictInput → Except String ℚ) (user : ℕ)
    (pre : List PredictInput) (x : PredictInput) (post : List PredictInput)
    (db : List DBRow) (e : String)
    (hpre : ∀ i ∈ pre, ∃ q, f i = .ok q) (hx : f x = .error e) :
    ∃ rows, processBatch f user (pre ++ x :: post) db = (.error e, db ++ rows) ∧
      rows.map DBRow.input = pre := by
  induction pre generalizing db with
  | nil =>
    refine ⟨[], ?_, rfl⟩
    simp [processBatch, hx]
  | cons i pre ih =>
    obtain ⟨q, hq⟩ := hpre i (List.mem_cons_self i pre)
    obtain ⟨rows, heq, hmap⟩ :=
      ih (db ++ [⟨user, i, predictFormat q⟩])
        (fun j hj => hpre j (List.mem_cons_of_mem i hj))
    refine ⟨⟨user, i, predictFormat q⟩ :: rows, ?_, by simp [hmap]⟩
    simp only [List.cons_append, processBatch, hq]
    simp only [List.append_eq]
    rw [heq]
    simp

/-- Claim C8: batch persistence is not atomic.  If every item before `x`
predicts successfully and predicting `x` raises, POST /predict/batch
answers HTTP 400 while the rows already committed for the earlier items
(one per element of `pre`, in order) remain in the predictions table. -/
theorem predict_batch_partial_persistence
    (f : PredictInput → Except String ℚ) (user : ℕ)
    (pre : List PredictInput) (x : PredictInput) (post : List PredictInput)
    (db : List DBRow) (e : String)
    (hpre : ∀ i ∈ pre, ∃ q, f i = .ok q) (hx : f x = .error e) :
    ∃ rows, predict_batch (some f) user (pre ++ x :: post) db =
        (.error ⟨400, e⟩, db ++ rows) ∧ rows.map DBRow.input = pre := by
  obtain ⟨rows, heq, hmap⟩ :=
    processBatch_error_keeps_rows f user pre x post db e hpre hx
  refine ⟨rows, ?_, hmap⟩
  simp only [predict_batch]
  rw [heq]

/-- A concrete model for exercising the batch handler: succeeds on Rice,
raises on everything else. -/
def batchFailFn : PredictInput → Except String ℚ :=
  fun i => if i.crop == "Rice" then .ok 1000 else .error "boom"

def wheatInput : PredictInput := { sampleInput with crop := "Wheat" }

theorem predict_batch_partial_persistence_witness :
    (∀ i ∈ [sampleInput], ∃ q, batchFailFn i = .ok q) ∧
    batchFailFn wheatInput = .error "boom" ∧
    (∃ rows, predict_batch (some batchFailFn) 7 ([sampleInput] ++ wheatInput :: []) [] =
        (.error ⟨400, "boom"⟩, [] ++ rows) ∧ rows.map DBRow.input = [sampleInput]) :=
  ⟨by intro i hi; rw [List.mem_singleton] at hi; exact ⟨1000, by rw [hi]; rfl⟩,
   rfl,
   predict_batch_partial_persistence batchFailFn 7 [sampleInput] wheatInput [] [] "boom"
     (by intro i hi; rw [List.mem_singleton] at hi; exact ⟨1000, by rw [hi]; rfl⟩)
     rfl⟩

theorem listMin_mem (p : ℚ) (ps : List ℚ) : ps.foldl min p ∈ p :: ps := by
  induction ps generalizing p with
  | nil => exact List.mem_singleton.mpr rfl
  | cons q qs ih =>
    have h := ih (min p q)
    simp only [List.foldl_cons]
    rcases List.mem_cons.mp h with h1 | h2
    · rw [h1]
      rcases min_choice p q with hm | hm <;> rw [hm]
      · exact List.mem_cons_self _ _
      · exact List.mem_cons_of_mem _ (List.mem_cons_self _ _)
    · exact List.mem_cons_of_mem _ (List.mem_cons_of_mem _ h2)

theorem listMax_mem (p : ℚ) (ps : List ℚ) : ps.foldl max p ∈ p :: ps := by
  induction ps generalizing p with
  | nil => exact List.mem_singleton.mpr rfl
  | cons q qs ih =>
    have h := ih (max p q)
    simp only [List.foldl_cons]
    rcases List.mem_cons.mp h with h1 | h2
    · rw [h1]
      rcases max_choice p q with hm | hm <;> rw [hm]
      · exact List.mem_cons_self _ _
      · exact List.mem_cons_of_mem _ (List.mem_cons_self _ _)
    · exact List.mem_cons_of_mem _ (List.mem_cons_of_mem _ h2)

/-- Every result produced by a successful batch loop is the formatting
of some raw model output, so its `predicted_price` is already rounded to
two decimals. -/
theorem processBatch_ok_prices_fixed
    (f : PredictInput → Except String ℚ) (user : ℕ) :
    ∀ (items : List PredictInput) (db : List DBRow)
      (results : List PredictionResult) (db2 : List DBRow),
      processBatch f user items db = (.ok results, db2) →
      ∀ r ∈ results, round2 r.predicted_price = r.predicted_price := by
  intro items
  induction items with
  | nil =>
    intro db results db2 h r hr
    simp only [processBatch, Prod.mk.injEq, Except.ok.injEq] at h
    rw [← h.1] at hr
    exact absurd hr (List.not_mem_nil r)
  | cons i rest ih =>
    intro db results db2 h r hr
    simp only [processBatch] at h
    split at h
    · simp at h
    · rename_i raw hf
      split at h
      · simp at h
      · rename_i rs db3 hrec
        simp only [Prod.mk.injEq, Except.ok.injEq] at h
        rw [← h.1] at hr
        rcases List.mem_cons.mp hr with h1 | h2
        · rw [h1]
          exact round2_idem raw
        · exact ih _ rs db3 hrec r h2

/-- Claim C5: for every batch request that succeeds, the summary's
`average_price` is the arithmetic mean of the per-item
`predicted_price` values rounded to 2 decimals, and `price_range` is
exactly `[minimum, maximum]` of those values (the handler re-rounds the
endpoints, but each per-item price is already rounded, so the rounding
is the identity on them); a successful batch is necessarily non-empty. -/
theorem predict_batch_summary_spec
    (f : PredictInput → Except String ℚ) (user : ℕ)
    (items : List PredictInput) (db : List DBRow)
    (resp : BatchResponse) (db2 : List DBRow)
    (h : predict_batch (some f) user items db = (.ok resp, db2)) :
    resp.results ≠ [] ∧
    resp.summary.average_price =
      round2 ((resp.results.map (fun r => r.predicted_price)).sum /
        ((resp.results.map (fun r => r.predicted_price)).length : ℚ)) ∧
    resp.summary.price_range =
      [listMin (resp.results.map (fun r => r.predicted_price)),
       listMax (resp.results.map (fun r => r.predicted_price))] ∧
    resp.summary.currency = "INR" := by
  simp only [predict_batch] at h
  split at h
  · simp at h
  · rename_i results db3 hpb
    split at h
    · simp at h
    · rename_i hne
      simp only [Prod.mk.injEq, Except.ok.injEq] at h
      obtain ⟨hresp, hdb⟩ := h
      subst hresp
      have hfix : ∀ q ∈ results.map (fun r => r.predicted_price), round2 q = q := by
        intro q hq
        obtain ⟨r, hr, hq'⟩ := List.mem_map.mp hq
        rw [← hq']
        exact processBatch_ok_prices_fixed f user items db results db3 hpb r hr
      refine ⟨?_, rfl, ?_, rfl⟩
      · intro hnil
        rw [show results = [] from hnil] at hne
        simp at hne
      · show [round2 (listMin (results.map fun r => r.predicted_price)),
              round2 (listMax (results.map fun r => r.predicted_price))] = _
        cases hp : results.map (fun r => r.predicted_price) with
        | nil => rw [hp] at hne; simp at hne
        | cons p ps =>
          rw [hp] at hfix
          have hmin := hfix _ (listMin_mem p ps)
          have hmax := hfix _ (listMax_mem p ps)
          rw [List.cons.injEq]
          exact ⟨hmin, by rw [List.cons.injEq]; exact ⟨hmax, rfl⟩⟩

/-- A concrete model for the batch summary witness: echoes the
previous-year price, producing per-item prices 1000, 2000, 3000 on the
witness items. -/
def avgFn : PredictInput → Except String ℚ := fun i => .ok i.prev_year_price

def wItem (p : ℚ) : PredictInput := { sampleInput with prev_year_price := p }

def wItems : List PredictInput := [wItem 1000, wItem 2000, wItem 3000]

def wResp : BatchResponse :=
  { results := [⟨1000, 900, 1100, "INR"⟩, ⟨2000, 1800, 2200, "INR"⟩,
                ⟨3000, 2700, 3300, "INR"⟩]
  , summary := { total_predictions := 3, average_price := 2000
               , price_range := [1000, 3000], currency := "INR" } }

def wDb : List DBRow :=
  [⟨7, wItem 1000, ⟨1000, 900, 1100, "INR"⟩⟩,
   ⟨7, wItem 2000, ⟨2000, 1800, 2200, "INR"⟩⟩,
   ⟨7, wItem 3000, ⟨3000, 2700, 3300, "INR"⟩⟩]

theorem predict_batch_summary_spec_witness :
    predict_batch (some avgFn) 7 wItems [] = (.ok wResp, wDb) ∧
    (wResp.results ≠ [] ∧
     wResp.summary.average_price =
       round2 ((wResp.results.map (fun r => r.predicted_price)).sum /
         ((wResp.results.map (fun r => r.predicted_price)).length : ℚ)) ∧
     wResp.summary.price_range =
       [listMin (wResp.results.map (fun r => r.predicted_price)),
        listMax (wResp.results.map (fun r => r.predicted_price))] ∧
     wResp.summary.currency = "INR") :=
  ⟨by with_unfolding_all rfl,
   predict_batch_summary_spec avgFn 7 wItems [] wResp wDb (by with_unfolding_all rfl)⟩

/-!
## The Model Trainer/Selector

`PerfectCropPricePredictor.train` (train_perfect_ai_model.py, lines
247-293) fits seven candidate pipelines, scores each on the held-out
split, picks the single best by R², then builds a `VotingRegressor`
from the top 3 by R², fits it on the training split, stores it in
`self.best_model` (overwriting the single best) and persists it.  The
fitted pipelines are opaque; each candidate is represented by its name
paired with its held-out R² score, so the selection logic — the only
part of the flow this repository implements — is embedded exactly over
an arbitrary score assignment. -/

/-- The seven candidates of `train_ensemble_models`
(train_perfect_ai_model.py lines 156-185), in dict insertion order. -/
def candidateNames : List String :=
  ["RandomForest", "GradientBoosting", "ExtraTrees", "Ridge", "Lasso",
   "ElasticNet", "SVR"]

/-- Ordering of (name, R²) pairs by descending R², as used by
`sorted(..., key=lambda x: x[1]['r2'], reverse=True)`. -/
def r2ge (a b : String × ℚ) : Prop := b.2 ≤ a.2

instance : DecidableRel r2ge := fun a b => inferInstanceAs (Decidable (b.2 ≤ a.2))

instance : IsTotal (String × ℚ) r2ge := ⟨fun a b => le_total b.2 a.2⟩

instance : IsTrans (String × ℚ) r2ge := ⟨fun _ _ _ h1 h2 => le_trans h2 h1⟩

/-- `sorted(self.model_performance.items(), key=..., reverse=True)[:3]`
(train_perfect_ai_model.py lines 233-234): the top 3 candidates by R². -/
def top3 (perf : List (String × ℚ)) : List (String × ℚ) :=
  (List.insertionSort r2ge perf).take 3

/-- `max(self.model_performance.keys(), key=lambda x: ...['r2'])`
(train_perfect_ai_model.py lines 219-220): the first name attaining the
maximal R².  Python's `max` raises on an empty dict; that case is
unreachable since the dict always holds the seven candidates. -/
def bestModelName : List (String × ℚ) → String
  | [] => ""
  | p :: ps => (ps.foldl (fun acc q => if acc.2 < q.2 then q else acc) p).1

/-- A serving artifact: either one fitted candidate pipeline or a voting
ensemble of several, identified by candidate names. -/
inductive Artifact where
  | single (pipelineName : String)
  | voting (memberNames : List String)
deriving Repr, DecidableEq

/-- The observable outcome of a training run: the final
`self.best_model`, the name returned by `train_ensemble_models`, what
`save_models` persists to models/perfect_crop_price_model.pkl, and
which data the ensemble was fitted on. -/
structure TrainerState where
  best_model : Artifact
  best_model_name : String
  saved_artifact : Artifact
  ensemble_fit_on_train_split : Bool
deriving Repr, DecidableEq

/-- The selection logic of `train` for a given score table `perf`:
`train_ensemble_models` sets `self.best_model` to the single best by R²
(line 221) and returns its name; `create_ensemble_predictor` builds a
`VotingRegressor` over the top 3 by R² and fits it on the training
split (lines 239-243); line 288 overwrites `self.best_model` with the
ensemble, which `save_models` (line 399) then persists. -/
def trainFlow (perf : List (String × ℚ)) : TrainerState :=
  let bname := bestModelName perf
  let ens := Artifact.voting ((top3 perf).map Prod.fst)
  { best_model := ens
  , best_model_name := bname
  , saved_artifact := ens
  , ensemble_fit_on_train_split := true }

/-- Claim C2: after every training run, the persisted serving artifact
is the voting ensemble of exactly the 3 candidates with the highest
held-out R² (every candidate outside the ensemble has an R² no larger
than every member's), fitted on the training split; the artifact is
never the single best candidate, whose computation only contributes its
name. -/
theorem train_serves_top3_ensemble (perf : List (String × ℚ))
    (hlen : 3 ≤ perf.length) :
    ∃ rest : List (String × ℚ),
      (trainFlow perf).saved_artifact = Artifact.voting ((top3 perf).map Prod.fst) ∧
      (trainFlow perf).best_model = (trainFlow perf).saved_artifact ∧
      (top3 perf).length = 3 ∧
      List.Perm (top3 perf ++ rest) perf ∧
      (∀ x ∈ top3 perf, ∀ y ∈ rest, y.2 ≤ x.2) ∧
      (trainFlow perf).ensemble_fit_on_train_split = true ∧
      (∀ n, (trainFlow perf).saved_artifact ≠ Artifact.single n) := by
  refine ⟨(List.insertionSort r2ge perf).drop 3, rfl, rfl, ?_, ?_, ?_, rfl,
    fun n h => Artifact.noConfusion h⟩
  · rw [top3, List.length_take, List.length_insertionSort]
    omega
  · have hp : List.Perm (List.insertionSort r2ge perf) perf := List.perm_insertionSort r2ge perf
    rw [top3, List.take_append_drop]
    exact hp
  · intro x hx y hy
    exact List.Sorted.rel_of_mem_take_of_mem_drop
      (List.sorted_insertionSort r2ge perf) hx hy

/-- A concrete score table for the seven candidates. -/
def perfSample : List (String × ℚ) :=
  [("RandomForest", 9/10), ("GradientBoosting", 95/100), ("ExtraTrees", 85/100),
   ("Ridge", 1/2), ("Lasso", 2/5), ("ElasticNet", 3/10), ("SVR", 1/5)]

theorem train_serves_top3_ensemble_witness :
    3 ≤ perfSample.length ∧
    (∃ rest : List (String × ℚ),
      (trainFlow perfSample).saved_artifact =
        Artifact.voting ((top3 perfSample).map Prod.fst) ∧
      (trainFlow perfSample).best_model = (trainFlow perfSample).saved_artifact ∧
      (top3 perfSample).length = 3 ∧
      List.Perm (top3 perfSample ++ rest) perfSample ∧
      (∀ x ∈ top3 perfSample, ∀ y ∈ rest, y.2 ≤ x.2) ∧
      (trainFlow perfSample).ensemble_fit_on_train_split = true ∧
      (∀ n, (trainFlow perfSample).saved_artifact ≠ Artifact.single n)) :=
  ⟨by simp [perfSample], train_serves_top3_ensemble perfSample (by simp [perfSample])⟩

/-!
## The train/test split configuration

Both training scripts call scikit-learn's `train_test_split`; the call
sites differ only in their arguments, so the embedding records the
arguments of each call. -/

structure SplitConfig where
  test_size : ℚ
  stratify_by_crop : Bool
  random_state : ℕ
deriving Repr, DecidableEq

/-- The split of `PerfectCropPricePredictor.train`
(train_perfect_ai_model.py lines 263-265): `test_size=0.2,
random_state=42, stratify=df['crop']`. -/
def perfectSplitConfig : SplitConfig :=
  { test_size := 1/5, stratify_by_crop := true, random_state := 42 }

/-- The split of `train_model` (train_enhanced_model.py lines 67-69):
`test_size=0.2, random_state=42`, with no `stratify` argument
(scikit-learn defaults to `stratify=None`, an unstratified shuffle
split). -/
def enhancedSplitConfig : SplitConfig :=
  { test_size := 1/5, stratify_by_crop := false, random_state := 42 }

/-- Claim C4 is false as stated: it asserts that every training run
splits 80/20 stratified by the crop label, and cites both call sites,
but the train_enhanced_model.py call passes no `stratify` argument, so
its 0.2-fraction split preserves no class balance. -/
theorem split_stratify_counterexample :
    enhancedSplitConfig.test_size = 1/5 ∧
      enhancedSplitConfig.stratify_by_crop = false :=
  ⟨rfl, rfl⟩

/-- Claim C4 (amended): the perfect trainer splits with a 0.2 test
fraction stratified by the crop label (preserving class balance across
the split); the enhanced trainer also uses a 0.2 test fraction but does
not stratify. -/
theorem split_config_spec :
    perfectSplitConfig.test_size = 1/5 ∧
    perfectSplitConfig.stratify_by_crop = true ∧
    perfectSplitConfig.random_state = 42 ∧
    enhancedSplitConfig.test_size = 1/5 ∧
    enhancedSplitConfig.stratify_by_crop = false :=
  ⟨rfl, rfl, rfl, rfl, rfl⟩






